import Mathlib

/-!
Shallow embedding of `shelly_hap_stateless_switch.cpp` (shelly::hap::StatelessSwitch),
an accessory-service adapter translating physical input events into HomeKit
"stateless programmable switch" events.

Machine integers are modelled as `Int`/`Nat` with explicit `% 2^w` where C++
narrowing conversions occur (uint16_t IIDs, uint8_t characteristic values).
Time (`mgos_uptime()`, seconds since boot) is modelled as a `Nat` parameter.
-/

namespace Shelly

/-- Input::Event, the raw event kinds delivered by the input subsystem
(cases enumerated in the `switch` of `InputEventHandler`). -/
inductive Event where
  | kSingle
  | kDouble
  | kLong
  | kChange
  | kReset
deriving DecidableEq, Repr

/-- Modelled from the spec: the `InMode` enum (header not under src/); the spec
fixes `in_mode` values {0,1,2} naming modes Momentary, ToggleShort,
ToggleShortLong in that order. -/
inductive InMode where
  | kMomentary
  | kToggleShort
  | kToggleShortLong
deriving DecidableEq, Repr

/-- Modelled from the spec: `static_cast<InMode>(cfg_->in_mode)` followed by a
`switch` that matches no case for values outside {0,1,2} (the enum values come
from a header not under src/; the spec fixes the 0/1/2 ↦ mode correspondence). -/
def toInMode : Int → Option InMode
  | 0 => some InMode.kMomentary
  | 1 => some InMode.kToggleShort
  | 2 => some InMode.kToggleShortLong
  | _ => none

/-- Modelled from the spec: HAP constant
kHAPCharacteristicValue_ProgrammableSwitchEvent_SinglePress (external SDK);
the spec fixes the event characteristic range 0–2 with codes 0/1/2. -/
def SinglePress : Nat := 0

/-- Modelled from the spec: HAP constant
kHAPCharacteristicValue_ProgrammableSwitchEvent_DoublePress (external SDK). -/
def DoublePress : Nat := 1

/-- Modelled from the spec: HAP constant
kHAPCharacteristicValue_ProgrammableSwitchEvent_LongPress (external SDK). -/
def LongPress : Nat := 2

/-- HAP error codes observable from the handlers in this file; success is
modelled by `Except.ok` (kHAPError_None). -/
inductive HAPError where
  | invalidState
deriving DecidableEq, Repr

/-- Status returned by `Init`/`SetConfig`; success is `Status.ok`, errors are
`mgos::Errorf(STATUS_INVALID_ARGUMENT, ...)`. -/
inductive Status where
  | ok
  | invalidArgument
deriving DecidableEq, Repr

/-- The `mgos_config_ssw` record referenced by `cfg_`: fields `name` and
`in_mode` as used by the source. -/
structure Config where
  name : String
  in_mode : Int
deriving DecidableEq, Repr

/-- The mutable state of one `StatelessSwitch` adapter: its identity `id`
(`Component(id)`, an `int`), the referenced config record `cfg_`, the last
raised event `last_ev_`, its timestamp `last_ev_ts_` (0 = never), and the list
of events pushed through `HAPAccessoryServerRaiseEvent` (to observe
notifications). -/
structure StatelessSwitch where
  id : Int
  cfg : Config
  last_ev : Nat
  last_ev_ts : Nat
  notified : List Nat
deriving DecidableEq, Repr

/-- Modelled from the spec: the member initializers of `last_ev_` and
`last_ev_ts_` live in the header (not under src/); the spec states the
last-event timestamp is 0 meaning "never", with the last-event value byte
sentinel 0. No notification has been raised yet. -/
def initialSwitch (id : Int) (cfg : Config) : StatelessSwitch :=
  { id := id, cfg := cfg, last_ev := 0, last_ev_ts := 0, notified := [] }

/-- StatelessSwitch::RaiseEvent: records `ev` and the current uptime as the
last event and asks the accessory server to deliver a notification for the
event characteristic. -/
def RaiseEvent (now : Nat) (ev : Nat) (s : StatelessSwitch) : StatelessSwitch :=
  { s with last_ev := ev, last_ev_ts := now, notified := s.notified ++ [ev] }

/-- The mode dispatch of StatelessSwitch::InputEventHandler after the
`static_cast<InMode>` of `cfg_->in_mode`: the `switch (in_mode)` body. -/
def handleMode (m : InMode) (ev : Event) (state : Bool) (now : Nat)
    (s : StatelessSwitch) : StatelessSwitch :=
  match m with
  | InMode.kMomentary =>
    match ev with
    | Event.kSingle => RaiseEvent now SinglePress s
    | Event.kDouble => RaiseEvent now DoublePress s
    | Event.kLong => RaiseEvent now LongPress s
    | Event.kChange => s
    | Event.kReset => s
  | InMode.kToggleShort | InMode.kToggleShortLong =>
    if ev ≠ Event.kChange then s
    else if m = InMode.kToggleShortLong ∧ state = false then
      RaiseEvent now DoublePress s
    else
      RaiseEvent now SinglePress s

/-- StatelessSwitch::InputEventHandler: translate a raw input event to a HAP
event according to the configured mode (no case matches when `cfg_->in_mode`
is outside the enum values, so nothing happens). -/
def InputEventHandler (ev : Event) (state : Bool) (now : Nat)
    (s : StatelessSwitch) : StatelessSwitch :=
  match toInMode s.cfg.in_mode with
  | some m => handleMode m ev state now s
  | none => s

/-- StatelessSwitch::HandleEventRead: fails with kHAPError_InvalidState when no
event was ever raised (`last_ev_ts_ == 0`), otherwise yields `last_ev_`. -/
def HandleEventRead (s : StatelessSwitch) : Except HAPError Nat :=
  if s.last_ev_ts = 0 then Except.error HAPError.invalidState
  else Except.ok s.last_ev

/-- StatelessSwitch::HandleServiceLabelIndexRead: writes `id()` (an `int`) into
a `uint8_t` output, i.e. the id reduced modulo 2^8. -/
def HandleServiceLabelIndexRead (s : StatelessSwitch) : Except HAPError Int :=
  Except.ok (s.id.emod 256)

/-- A sequence of RaiseEvent calls `(now, value)` applied to a freshly
constructed adapter; RaiseEvent is the only mutator of the last-event state. -/
def runRaises (id : Int) (cfg : Config) (calls : List (Nat × Nat)) :
    StatelessSwitch :=
  calls.foldl (fun s c => RaiseEvent c.1 c.2 s) (initialSwitch id cfg)

/-- Helper for stating per-mode properties: the adapter state with its config
record's `in_mode` field set to `v`. -/
def setMode (s : StatelessSwitch) (v : Int) : StatelessSwitch :=
  { s with cfg := { s.cfg with in_mode := v } }

/-- The `strlen(name) > 64` check of SetConfig, applied to the optional parsed
`name` field (`name == nullptr` when the key is absent). -/
def nameTooLong : Option String → Bool
  | some n => 64 < n.length
  | none => false

/-- StatelessSwitch::SetConfig: `json_scanf` leaves `name = nullptr` and
`in_mode = -1` for absent keys (modelled by the two `Option` arguments);
`*restart_required` is set to false before validation; a too-long name or an
out-of-range `in_mode` returns InvalidArgument leaving `cfg_` untouched;
otherwise a differing supplied name is stored and sets `*restart_required`,
and the validated `in_mode` is always stored. Returns
(status, updated config record, restart_required). -/
def SetConfig (pname : Option String) (pin_mode : Option Int) (cfg : Config) :
    Status × Config × Bool :=
  let in_mode : Int := pin_mode.getD (-1)
  let restart_required := false
  if nameTooLong pname then (Status.invalidArgument, cfg, restart_required)
  else if in_mode < 0 ∨ 2 < in_mode then
    (Status.invalidArgument, cfg, restart_required)
  else
    match pname with
    | some n =>
      if n ≠ cfg.name then (Status.ok, { name := n, in_mode := in_mode }, true)
      else (Status.ok, { cfg with in_mode := in_mode }, restart_required)
    | none => (Status.ok, { cfg with in_mode := in_mode }, restart_required)

/-- The IID computation of StatelessSwitch::Init:
`uint16_t iid = IID_BASE_STATELESS_SWITCH + IID_STEP_STATELESS_SWITCH * (id - 1)`
followed by post-increments for the service and the name, event and
service-label-index characteristics, each truncated to uint16_t. -/
structure ServiceIIDs where
  svc : Int
  nameChar : Int
  eventChar : Int
  labelChar : Int
deriving DecidableEq, Repr

/-- uint16_t narrowing of an `int` value (C++ conversion to unsigned is
reduction modulo 2^16). -/
def uint16ofInt (x : Int) : Int := x.emod 65536

/-- The IIDs assigned by StatelessSwitch::Init, as a function of the category
base and step constants and the adapter id (`const int id1 = id() - 1`). -/
def initIIDs (base step id : Int) : ServiceIIDs :=
  let id1 := id - 1
  let i0 := uint16ofInt (base + step * id1)
  let i1 := uint16ofInt (i0 + 1)
  let i2 := uint16ofInt (i1 + 1)
  let i3 := uint16ofInt (i2 + 1)
  { svc := i0, nameChar := i1, eventChar := i2, labelChar := i3 }

lemma handleMode_cases (m : InMode) (ev : Event) (st : Bool) (now : Nat)
    (s : StatelessSwitch) :
    handleMode m ev st now s = s ∨
      ∃ v, v ≤ 2 ∧ handleMode m ev st now s = RaiseEvent now v s := by
  cases m <;> cases ev <;> cases st <;>
    first
      | exact Or.inl rfl
      | exact Or.inr ⟨0, by omega, rfl⟩
      | exact Or.inr ⟨1, by omega, rfl⟩
      | exact Or.inr ⟨2, by omega, rfl⟩

lemma inputEventHandler_cases (ev : Event) (st : Bool) (now : Nat)
    (s : StatelessSwitch) :
    InputEventHandler ev st now s = s ∨
      ∃ v, v ≤ 2 ∧ InputEventHandler ev st now s = RaiseEvent now v s := by
  unfold InputEventHandler
  rcases hm : toInMode s.cfg.in_mode with _ | m
  · exact Or.inl rfl
  · exact handleMode_cases m ev st now s

/-- Claim C1: in Momentary mode (in_mode 0) raw single, double and long presses
emit SinglePress, DoublePress and LongPress respectively; in ToggleShort mode
(in_mode 1) a raw change event emits SinglePress; in ToggleShortLong mode
(in_mode 2) a raw change event with new state false emits DoublePress, with new
state true SinglePress. -/
theorem C1_translation_table (s : StatelessSwitch) (now : Nat) (st : Bool) :
    InputEventHandler Event.kSingle st now (setMode s 0)
      = RaiseEvent now SinglePress (setMode s 0) ∧
    InputEventHandler Event.kDouble st now (setMode s 0)
      = RaiseEvent now DoublePress (setMode s 0) ∧
    InputEventHandler Event.kLong st now (setMode s 0)
      = RaiseEvent now LongPress (setMode s 0) ∧
    InputEventHandler Event.kChange st now (setMode s 1)
      = RaiseEvent now SinglePress (setMode s 1) ∧
    InputEventHandler Event.kChange false now (setMode s 2)
      = RaiseEvent now DoublePress (setMode s 2) ∧
    InputEventHandler Event.kChange true now (setMode s 2)
      = RaiseEvent now SinglePress (setMode s 2) := by
  refine ⟨rfl, rfl, rfl, ?_, rfl, rfl⟩
  cases st <;> rfl

/-- Claim C4: every (mode, raw event, state) combination outside the
translation table (Momentary with change or reset; ToggleShort or
ToggleShortLong with single, double, long or reset) leaves the adapter state —
last event, timestamp and notification list — completely unchanged. -/
theorem C4_off_table_noop (s : StatelessSwitch) (now : Nat) (st : Bool) :
    InputEventHandler Event.kChange st now (setMode s 0) = setMode s 0 ∧
    InputEventHandler Event.kReset st now (setMode s 0) = setMode s 0 ∧
    InputEventHandler Event.kSingle st now (setMode s 1) = setMode s 1 ∧
    InputEventHandler Event.kDouble st now (setMode s 1) = setMode s 1 ∧
    InputEventHandler Event.kLong st now (setMode s 1) = setMode s 1 ∧
    InputEventHandler Event.kReset st now (setMode s 1) = setMode s 1 ∧
    InputEventHandler Event.kSingle st now (setMode s 2) = setMode s 2 ∧
    InputEventHandler Event.kDouble st now (setMode s 2) = setMode s 2 ∧
    InputEventHandler Event.kLong st now (setMode s 2) = setMode s 2 ∧
    InputEventHandler Event.kReset st now (setMode s 2) = setMode s 2 := by
  exact ⟨rfl, rfl, rfl, rfl, rfl, rfl, rfl, rfl, rfl, rfl⟩

/-- Claim C10: the input-event handler only ever calls RaiseEvent with one of
the three constants 0, 1, 2, so an adapter whose last-event value is within
0–2 stays within 0–2 after every invocation, in every mode. -/
theorem C10_last_ev_range (s : StatelessSwitch) (ev : Event) (st : Bool)
    (now : Nat) (h : s.last_ev ≤ 2) :
    (InputEventHandler ev st now s).last_ev ≤ 2 ∧
    (InputEventHandler ev st now s = s ∨
      ∃ v, v ≤ 2 ∧ InputEventHandler ev st now s = RaiseEvent now v s) := by
  refine ⟨?_, inputEventHandler_cases ev st now s⟩
  rcases inputEventHandler_cases ev st now s with he | ⟨v, hv, he⟩ <;> rw [he]
  · exact h
  · simpa [RaiseEvent] using hv

/-- Witness for C10 at a concrete adapter state and input. -/
theorem C10_last_ev_range_witness :
    (initialSwitch 1 ⟨"sw", 0⟩).last_ev ≤ 2 ∧
    (InputEventHandler Event.kSingle true 5
      (initialSwitch 1 ⟨"sw", 0⟩)).last_ev ≤ 2 :=
  ⟨by decide,
   (C10_last_ev_range (initialSwitch 1 ⟨"sw", 0⟩) Event.kSingle true 5
      (by decide)).1⟩

/-- Claim C2: reading the programmable-switch-event characteristic before any
RaiseEvent call fails with InvalidState; after any RaiseEvent(v) (at a positive
uptime) every read returns v until the next RaiseEvent call. -/
theorem C2_event_read (id : Int) (cfg : Config) :
    HandleEventRead (runRaises id cfg []) = Except.error HAPError.invalidState ∧
    ∀ (pre : List (Nat × Nat)) (now v : Nat), 0 < now →
      HandleEventRead (runRaises id cfg (pre ++ [(now, v)])) = Except.ok v := by
  constructor
  · rfl
  · intro pre now v hnow
    have hrun : runRaises id cfg (pre ++ [(now, v)])
        = RaiseEvent now v (runRaises id cfg pre) := by
      simp [runRaises, List.foldl_append]
    rw [hrun]
    unfold HandleEventRead RaiseEvent
    simp only []
    rw [if_neg (by omega)]

/-- Witness for C2 at a concrete trace. -/
theorem C2_event_read_witness :
    0 < 7 ∧
    HandleEventRead (runRaises 1 ⟨"sw", 0⟩ ([(3, 0)] ++ [(7, 2)]))
      = Except.ok 2 :=
  ⟨by decide, (C2_event_read 1 ⟨"sw", 0⟩).2 [(3, 0)] 7 2 (by decide)⟩

/-- Claim C3: a configuration payload whose in_mode field is absent or outside
{0,1,2} is rejected with InvalidArgument and the stored config record (name and
in_mode) is unchanged; in particular a payload with only a valid name is
rejected. -/
theorem C3_in_mode_required (pname : Option String) (pin : Option Int)
    (cfg : Config)
    (h : pin = none ∨ ∃ v, pin = some v ∧ (v < 0 ∨ 2 < v)) :
    (SetConfig pname pin cfg).1 = Status.invalidArgument ∧
    (SetConfig pname pin cfg).2.1 = cfg := by
  have hm : pin.getD (-1) < 0 ∨ 2 < pin.getD (-1) := by
    rcases h with h | ⟨v, hv, hr⟩
    · subst h
      simp
    · subst hv
      simpa using hr
  by_cases h1 : nameTooLong pname = true
  · exact ⟨by simp [SetConfig, h1], by simp [SetConfig, h1]⟩
  · exact ⟨by simp [SetConfig, h1, hm], by simp [SetConfig, h1, hm]⟩

/-- Witness for C3: a payload with only a valid name and no in_mode. -/
theorem C3_in_mode_required_witness :
    (Option.none = (Option.none : Option Int) ∨
      ∃ v, (Option.none : Option Int) = some v ∧ (v < 0 ∨ 2 < v)) ∧
    (SetConfig (some "kitchen") none ⟨"sw", 1⟩).1 = Status.invalidArgument ∧
    (SetConfig (some "kitchen") none ⟨"sw", 1⟩).2.1 = ⟨"sw", 1⟩ :=
  ⟨Or.inl rfl, C3_in_mode_required (some "kitchen") none ⟨"sw", 1⟩ (Or.inl rfl)⟩

/-- Claim C6: a configuration payload whose name field is present and longer
than 64 characters is rejected with InvalidArgument and the stored config
record is unchanged. -/
theorem C6_name_too_long (pin : Option Int) (cfg : Config) (n : String)
    (h : 64 < n.length) :
    (SetConfig (some n) pin cfg).1 = Status.invalidArgument ∧
    (SetConfig (some n) pin cfg).2.1 = cfg := by
  have h1 : nameTooLong (some n) = true := by
    simp [nameTooLong, h]
  exact ⟨by simp [SetConfig, h1], by simp [SetConfig, h1]⟩

/-- Witness for C6 with a 65-character name. -/
theorem C6_name_too_long_witness :
    64 < ("aaaaaaaaaaaaaaaaaaaaaaaaaaaaaaaaaaaaaaaaaaaaaaaaaaaaaaaaaaaaaaaaa"
      : String).length ∧
    (SetConfig
      (some "aaaaaaaaaaaaaaaaaaaaaaaaaaaaaaaaaaaaaaaaaaaaaaaaaaaaaaaaaaaaaaaaa")
      (some 1) ⟨"sw", 0⟩).1 = Status.invalidArgument ∧
    (SetConfig
      (some "aaaaaaaaaaaaaaaaaaaaaaaaaaaaaaaaaaaaaaaaaaaaaaaaaaaaaaaaaaaaaaaaa")
      (some 1) ⟨"sw", 0⟩).2.1 = ⟨"sw", 0⟩ :=
  ⟨by decide,
   C6_name_too_long (some 1) ⟨"sw", 0⟩
     "aaaaaaaaaaaaaaaaaaaaaaaaaaaaaaaaaaaaaaaaaaaaaaaaaaaaaaaaaaaaaaaaa"
     (by decide)⟩

/-- Claim C9: restart_required is written to false before validation, so on
every error return of SetConfig the caller observes restart_required = false. -/
theorem C9_restart_false_on_error (pname : Option String) (pin : Option Int)
    (cfg : Config) (h : (SetConfig pname pin cfg).1 ≠ Status.ok) :
    (SetConfig pname pin cfg).2.2 = false := by
  by_cases h1 : nameTooLong pname = true
  · simp [SetConfig, h1]
  · by_cases h2 : pin.getD (-1) < 0 ∨ 2 < pin.getD (-1)
    · simp [SetConfig, h1, h2]
    · exfalso
      apply h
      rcases pname with _ | n
      · simp [SetConfig, h1, h2]
      · rcases eq_or_ne n cfg.name with hn | hn
        · subst hn
          simp [SetConfig, h1, h2]
        · simp [SetConfig, h1, h2, hn]

/-- Witness for C9: an error return (in_mode absent) reports restart false. -/
theorem C9_restart_false_on_error_witness :
    (SetConfig none none ⟨"sw", 0⟩).1 ≠ Status.ok ∧
    (SetConfig none none ⟨"sw", 0⟩).2.2 = false :=
  ⟨by decide, C9_restart_false_on_error none none ⟨"sw", 0⟩ (by decide)⟩

/-- Claim C5: on every successful SetConfig call, a supplied name is stored
and, when it differs from the stored name, restart_required is true; with the
name absent or equal to the stored name restart_required stays false; and the
validated in_mode (necessarily supplied and within 0–2) is always written. -/
theorem C5_success_effects (pname : Option String) (pin : Option Int)
    (cfg : Config) (h : (SetConfig pname pin cfg).1 = Status.ok) :
    (∀ n, pname = some n →
      (SetConfig pname pin cfg).2.1.name = n ∧
      (n ≠ cfg.name → (SetConfig pname pin cfg).2.2 = true)) ∧
    ((pname = none ∨ pname = some cfg.name) →
      (SetConfig pname pin cfg).2.2 = false ∧
      (SetConfig pname pin cfg).2.1.name = cfg.name) ∧
    (∃ v, pin = some v ∧ 0 ≤ v ∧ v ≤ 2 ∧
      (SetConfig pname pin cfg).2.1.in_mode = v) := by
  by_cases h1 : nameTooLong pname = true
  · simp [SetConfig, h1] at h
  by_cases h2 : pin.getD (-1) < 0 ∨ 2 < pin.getD (-1)
  · simp [SetConfig, h1, h2] at h
  obtain ⟨v, hv⟩ : ∃ v, pin = some v := by
    rcases pin with _ | v
    · exact absurd (by simp) h2
    · exact ⟨v, rfl⟩
  subst hv
  have hc : ¬(v < 0 ∨ 2 < v) := by simpa using h2
  rcases pname with _ | n
  · refine ⟨by simp, fun _ => ?_, ⟨v, rfl, by omega, by omega, ?_⟩⟩
    · constructor <;> simp [SetConfig, nameTooLong, hc]
    · simp [SetConfig, nameTooLong, hc]
  · rcases eq_or_ne n cfg.name with hn | hn
    · subst hn
      refine ⟨?_, fun _ => ?_, ⟨v, rfl, by omega, by omega, ?_⟩⟩
      · intro m hm
        injection hm with hm'
        subst hm'
        exact ⟨by simp [SetConfig, h1, hc], fun hne => absurd rfl hne⟩
      · constructor <;> simp [SetConfig, h1, hc]
      · simp [SetConfig, h1, hc]
    · refine ⟨?_, ?_, ⟨v, rfl, by omega, by omega, ?_⟩⟩
      · intro m hm
        injection hm with hm'
        subst hm'
        exact ⟨by simp [SetConfig, h1, hc, hn],
          fun _ => by simp [SetConfig, h1, hc, hn]⟩
      · intro hcase
        rcases hcase with hcase | hcase
        · exact absurd hcase (by simp)
        · injection hcase with hcase'
          exact absurd hcase' hn
      · simp [SetConfig, h1, hc, hn]

/-- Witness for C5: renaming with a valid mode succeeds and stores the mode. -/
theorem C5_success_effects_witness :
    (SetConfig (some "new") (some 2) ⟨"old", 0⟩).1 = Status.ok ∧
    ∃ v, (some (2 : Int)) = some v ∧ 0 ≤ v ∧ v ≤ 2 ∧
      (SetConfig (some "new") (some 2) ⟨"old", 0⟩).2.1.in_mode = v :=
  ⟨by decide,
   (C5_success_effects (some "new") (some 2) ⟨"old", 0⟩ (by decide)).2.2⟩

/-- Claim C7: Init assigns the service IID the value BASE + STEP*(id-1) and the
name, event and service-label-index characteristics the next three consecutive
integers, so all four IIDs of one adapter are pairwise distinct; the
allocation is the function initIIDs of (base, step, id) alone. -/
theorem C7_iid_allocation (base step id : Int)
    (h0 : 0 ≤ base + step * (id - 1))
    (h1 : base + step * (id - 1) + 3 < 65536) :
    (initIIDs base step id).svc = base + step * (id - 1) ∧
    (initIIDs base step id).nameChar = base + step * (id - 1) + 1 ∧
    (initIIDs base step id).eventChar = base + step * (id - 1) + 2 ∧
    (initIIDs base step id).labelChar = base + step * (id - 1) + 3 ∧
    (initIIDs base step id).svc ≠ (initIIDs base step id).nameChar ∧
    (initIIDs base step id).svc ≠ (initIIDs base step id).eventChar ∧
    (initIIDs base step id).svc ≠ (initIIDs base step id).labelChar ∧
    (initIIDs base step id).nameChar ≠ (initIIDs base step id).eventChar ∧
    (initIIDs base step id).nameChar ≠ (initIIDs base step id).labelChar ∧
    (initIIDs base step id).eventChar ≠ (initIIDs base step id).labelChar := by
  have e : ∀ y : Int, 0 ≤ y → y < 65536 → uint16ofInt y = y := fun y hy hy2 =>
    Int.emod_eq_of_lt hy hy2
  simp only [initIIDs]
  rw [e (base + step * (id - 1)) h0 (by omega)]
  rw [e (base + step * (id - 1) + 1) (by omega) (by omega)]
  rw [e (base + step * (id - 1) + 1 + 1) (by omega) (by omega)]
  rw [e (base + step * (id - 1) + 1 + 1 + 1) (by omega) (by omega)]
  refine ⟨rfl, rfl, by omega, by omega, by omega, by omega, by omega, by omega,
    by omega, by omega⟩

/-- Witness for C7 at base 768, step 4, id 5. -/
theorem C7_iid_allocation_witness :
    (0 : Int) ≤ 768 + 4 * (5 - 1) ∧ (768 : Int) + 4 * (5 - 1) + 3 < 65536 ∧
    (initIIDs 768 4 5).svc = 768 + 4 * (5 - 1) :=
  ⟨by decide, by decide, (C7_iid_allocation 768 4 5 (by decide) (by decide)).1⟩

/-- Claim C8: reading the service-label-index characteristic returns the
adapter's configured id (a uint8, so exactly id for 1 ≤ id ≤ 255), no matter
what input events have been handled and no matter the config record. -/
theorem C8_label_read (s : StatelessSwitch) (h1 : 1 ≤ s.id) (h2 : s.id ≤ 255) :
    HandleServiceLabelIndexRead s = Except.ok s.id ∧
    (∀ (ev : Event) (st : Bool) (now : Nat),
      HandleServiceLabelIndexRead (InputEventHandler ev st now s)
        = Except.ok s.id) ∧
    ∀ c : Config,
      HandleServiceLabelIndexRead { s with cfg := c } = Except.ok s.id := by
  have hread : ∀ t : StatelessSwitch, t.id = s.id →
      HandleServiceLabelIndexRead t = Except.ok s.id := by
    intro t ht
    unfold HandleServiceLabelIndexRead
    rw [ht]
    exact congrArg Except.ok (Int.emod_eq_of_lt (by omega) (by omega))
  refine ⟨hread s rfl, ?_, fun c => hread _ rfl⟩
  intro ev st now
  rcases inputEventHandler_cases ev st now s with he | ⟨v, _, he⟩ <;> rw [he]
  · exact hread s rfl
  · exact hread _ rfl

/-- Witness for C8 at id 3 after an event. -/
theorem C8_label_read_witness :
    1 ≤ (initialSwitch 3 ⟨"sw", 0⟩).id ∧
    HandleServiceLabelIndexRead
      (InputEventHandler Event.kSingle true 5 (initialSwitch 3 ⟨"sw", 0⟩))
      = Except.ok (initialSwitch 3 ⟨"sw", 0⟩).id :=
  ⟨by decide,
   (C8_label_read (initialSwitch 3 ⟨"sw", 0⟩) (by decide) (by decide)).2.1
     Event.kSingle true 5⟩

end Shelly
